import Mathlib

/-!
Verification of the board-interaction core of an electronic chessboard
controller (`ChessGame.py`, `StateManager.py`, `BluetoothManager.py`,
`FileManager.py`, `State.py`).

The chess-rules library, the board sensor, the UCI engine and the opening
book are external collaborators; they are embedded as an abstract `Rules`
structure (positions, move application, a legality oracle, game-over and
ply observables).  Everything else is translated directly from the Python
source: the game data operations (`do_move`, `force_moves`,
`index_of_difference`, `is_legal_move_list`, `_pop_board_to_move_number`,
`should_save_game`), the orchestrator operations (`go_to_state`,
`on_game_end`, `on_game_start_request`, `force_bluetooth_moves`), the
power-off state logic, the engine adapter's callback discipline, and the
Bluetooth frame codec (`encode_message` / `decode_message`).

Python exceptions are modelled by the `PyError` type; an operation that can
raise returns the state at the moment of the raise together with the error,
mirroring the fact that in the source every raise happens at a well-defined
point in the method body.
-/

/-- Exception kinds raised by the modelled Python code. -/
inductive PyError where
  | valueError
  | typeError
  | keyError
  | attributeError
  | indexError
deriving DecidableEq

/-- Translation of `ChessGame.index_of_difference` (ChessGame.py lines
37-45): the lowest index at which two lists disagree; for identical lists
the common length, and when one list is a prefix of the other the shorter
length (the Python loop stops at the `IndexError`). -/
def index_of_difference {α : Type} [DecidableEq α] : List α → List α → Nat
  | a :: as, b :: bs => if a = b then index_of_difference as bs + 1 else 0
  | _, _ => 0

/-- `k` is the length of the longest common prefix of `l1` and `l2`:
`k` is within both lists, the first `k` elements agree, and no longer
in-range prefix agrees. -/
def IsLcpLen {α : Type} (k : Nat) (l1 l2 : List α) : Prop :=
  k ≤ l1.length ∧ k ≤ l2.length ∧ l1.take k = l2.take k ∧
    ∀ j, j ≤ l1.length → j ≤ l2.length → l1.take j = l2.take j → j ≤ k

/-- Abstract interface of the chess-rules library (`chess.Board`,
`chess.Move`): positions, move application (`board.push`), the legality
oracle (`board.is_legal`), the null move (`chess.Move.null()`), the
standard starting position (`chess.Board()` with no arguments), and the
observables used by persistence (`board.is_game_over(claim_draw=True)`,
`board.ply()`). -/
structure Rules (Pos Move : Type) where
  push : Pos → Move → Pos
  isLegal : Pos → Move → Bool
  nullMove : Move
  standardStart : Pos
  isGameOver : Pos → Bool
  ply : Pos → Nat

/-- Translation of the `PlayerType` enum (ChessGame.py lines 484-487). -/
inductive PlayerType where
  | human
  | engine
  | bluetooth
deriving DecidableEq

/-- Data content of a `ChessGame` (ChessGame.py lines 494-524): the
starting position (`chess.Board(start_fen)`), the move history
(`_board.move_stack`), the mainline moves recorded in the PGN game tree
(`_pgn_node` chain), the per-color player types, and the forced-move flag
on the last move.  The authoritative position is not stored: in the source
`_board` always equals the starting position with the history pushed, which
the embedding makes definitional via `board_of`. -/
structure ChessGame (Pos Move : Type) where
  startPos : Pos
  history : List Move
  pgnMoves : List Move
  whitePlayerType : PlayerType
  blackPlayerType : PlayerType
  wasLastMoveForced : Bool
deriving DecidableEq

/-- Translation of `self.is_bluetooth_game` (ChessGame.py line 508):
true when either player type is `BLUETOOTH`. -/
def is_bluetooth_game {Pos Move : Type} (g : ChessGame Pos Move) : Bool :=
  g.whitePlayerType = PlayerType.bluetooth ∨ g.blackPlayerType = PlayerType.bluetooth

/-- The authoritative position: the starting position with the recorded
history applied in order (in the source, the mutable `_board`). -/
def board_of {Pos Move : Type} (R : Rules Pos Move) (g : ChessGame Pos Move) : Pos :=
  g.history.foldl R.push g.startPos

/-- Translation of `ChessGame.do_move` (ChessGame.py lines 594-599): set
the forced flag, push the move onto the board, and add it to the PGN
mainline. -/
def do_move {Pos Move : Type} (g : ChessGame Pos Move) (m : Move)
    (is_forced_move : Bool) : ChessGame Pos Move :=
  { g with
    history := g.history ++ [m]
    pgnMoves := g.pgnMoves ++ [m]
    wasLastMoveForced := is_forced_move }

/-- The move-legality invariant, stated from the spec's words: every move
of the list is legal at the position where it is applied, starting from
`b`. -/
def legalFrom {Pos Move : Type} (R : Rules Pos Move) : Pos → List Move → Bool
  | _, [] => true
  | b, m :: ms => R.isLegal b m && legalFrom R (R.push b m) ms

/-- Loop body of `is_legal_move_list` (ChessGame.py lines 48-54): walk the
list from position `b`, rejecting when a move is illegal at the current
board or is the null move, pushing otherwise. -/
def is_legal_move_list_from {Pos Move : Type} [DecidableEq Move]
    (R : Rules Pos Move) : Pos → List Move → Bool
  | _, [] => true
  | b, m :: ms =>
    if !R.isLegal b m || m = R.nullMove then false
    else is_legal_move_list_from R (R.push b m) ms

/-- Translation of `is_legal_move_list` (ChessGame.py lines 48-54).  Note
that the source starts from `chess.Board()` — the standard starting
position — regardless of the game's `start_fen`. -/
def is_legal_move_list {Pos Move : Type} [DecidableEq Move]
    (R : Rules Pos Move) (move_list : List Move) : Bool :=
  is_legal_move_list_from R R.standardStart move_list

/-- Translation of `ChessGame._pop_board_to_move_number` (ChessGame.py
lines 663-665): pop the board and the PGN mainline until the history has
length `index`. -/
def pop_board_to_move_number {Pos Move : Type} (g : ChessGame Pos Move)
    (index : Nat) : ChessGame Pos Move :=
  { g with history := g.history.take index, pgnMoves := g.pgnMoves.take index }

/-- Result of a `force_moves` call (ChessGame.py lines 570-590): a raised
error (the state is unchanged, both raises precede any mutation), the
explicit no-action return, or the popped game together with the move
suffix and forced winner handed to `ForceMultipleMovesState`. -/
inductive ForceMovesOutcome (Pos Move : Type) where
  | error (e : PyError)
  | noAction
  | replay (popped : ChessGame Pos Move) (suffix : List Move) (forcedWinner : Option String)
deriving DecidableEq

/-- Translation of `ChessGame.force_moves` (ChessGame.py lines 570-590),
taking the already-parsed move list.  In source order: raise unless the
game is a bluetooth game; raise if the list fails `is_legal_move_list`;
return without action if the list equals the current history and no winner
is forced; otherwise pop to the index of difference and hand the remaining
suffix to `ForceMultipleMovesState`. -/
def force_moves {Pos Move : Type} [DecidableEq Move] (R : Rules Pos Move)
    (g : ChessGame Pos Move) (new_moves : List Move) (forced_winner : Option String) :
    ForceMovesOutcome Pos Move :=
  if !is_bluetooth_game g then ForceMovesOutcome.error PyError.valueError
  else if !is_legal_move_list R new_moves then ForceMovesOutcome.error PyError.valueError
  else if new_moves = g.history ∧ forced_winner = none then ForceMovesOutcome.noAction
  else
    let k := index_of_difference new_moves g.history
    ForceMovesOutcome.replay (pop_board_to_move_number g k) (new_moves.drop k) forced_winner

/-- Hypothetical completed effect of the `ForceMultipleMovesState`
pipeline (ChessGame.py lines 404-418 with lines 344-401): each move of the
suffix committed by `do_move(move, is_forced_move=True)` once the physical
board matches.  In the source this pipeline never completes — its first
hand-off raises `AttributeError` because `ForceMultipleMovesState` defines
no `on_leave_state` (see `force_moves_run` below for the faithful
behaviour); this counterfactual is kept only to express the replay arm of
`force_moves_result`. -/
def run_force_multiple_moves {Pos Move : Type} (g : ChessGame Pos Move)
    (suffix : List Move) : ChessGame Pos Move :=
  suffix.foldl (fun gg m => do_move gg m true) g

/-- Game state after a `force_moves` call under the counterfactual
assumption that the replay pipeline runs to completion.  The rejection
paths are faithful — a raised error and the no-action return both leave
the game unchanged, since in the source both raises precede any mutation —
but the replay arm is hypothetical: the source raises `AttributeError`
during the hand-off and never commits a suffix move (see
`force_moves_run`). -/
def force_moves_result {Pos Move : Type} [DecidableEq Move] (R : Rules Pos Move)
    (g : ChessGame Pos Move) (new_moves : List Move) (forced_winner : Option String) :
    ChessGame Pos Move :=
  match force_moves R g new_moves forced_winner with
  | ForceMovesOutcome.error _ => g
  | ForceMovesOutcome.noAction => g
  | ForceMovesOutcome.replay popped suffix _ => run_force_multiple_moves popped suffix

/-- Whether a `force_moves` call raised. -/
def isErrorOutcome {Pos Move : Type} : ForceMovesOutcome Pos Move → Bool
  | ForceMovesOutcome.error _ => true
  | _ => false

/-! ## Orchestrator state dispatch (StateManager.py, State.py) -/

/-- The concrete `State` subclasses of the source (ChessGame.py,
StateManager.py): the four outer states and the inner states of an active
game. -/
inductive StateClass where
  | ledTest
  | waitingForSetup
  | waitingToPowerOff
  | playerMoveBase
  | playerMoveFromSquare
  | completeMove
  | confirmMove
  | calculateEngineMove
  | forceMove
  | forceMultipleMoves
  | gameEndIndicator
  | idle
  | abortLater
  | chessGame
deriving DecidableEq

/-- Which `State` subclasses define an `on_leave_state` method, read off
the class bodies in ChessGame.py.  The abstract base class (State.py lines
6-14) declares only `on_enter_state` and `on_board_changed`, so a class
listed `false` here has no `on_leave_state` attribute at all. -/
def defines_on_leave_state : StateClass → Bool
  | StateClass.ledTest => true
  | StateClass.waitingForSetup => false
  | StateClass.waitingToPowerOff => true
  | StateClass.playerMoveBase => false
  | StateClass.playerMoveFromSquare => false
  | StateClass.completeMove => false
  | StateClass.confirmMove => true
  | StateClass.calculateEngineMove => true
  | StateClass.forceMove => false
  | StateClass.forceMultipleMoves => false
  | StateClass.gameEndIndicator => true
  | StateClass.idle => false
  | StateClass.abortLater => true
  | StateClass.chessGame => true

/-- Observable steps of a state transition. -/
inductive TransitionEvent where
  | leave (s : StateClass)
  | enter (s : StateClass)
  | boardChanged (s : StateClass)
deriving DecidableEq

/-- Translation of `StateManager.go_to_state` with `init_state`
(StateManager.py lines 63-78): call `on_leave_state` on the current state,
install the new one, call its `on_enter_state`, then replay
`on_board_changed(last_board)`.  Calling `on_leave_state` on an object
whose class does not define it raises `AttributeError`. -/
def go_to_state (current next : StateClass) : Except PyError (List TransitionEvent) :=
  if defines_on_leave_state current then
    Except.ok [TransitionEvent.leave current, TransitionEvent.enter next,
      TransitionEvent.boardChanged next]
  else Except.error PyError.attributeError

/-! ## Faithful force_moves call, transition layer included -/

/-- Translation of `ChessGame.force_moves` (ChessGame.py lines 570-590)
together with the state transition it ends with.  The raises and the
no-action return are as in `force_moves`; otherwise the board, history
and PGN are popped to the index of difference and
`self.go_to_state(ForceMultipleMovesState(...))` runs (ChessGame.py lines
562-567).  `ChessGame.go_to_state` first calls `on_leave_state()` on the
current inner state (`inner`): when that state's class defines no such
method the call raises `AttributeError` at once, leaving the popped game
with its old inner state.  When the leave hook exists, the hook runs and
`ForceMultipleMovesState` is installed; on an active game `init_state`
then runs its `on_enter_state` (ChessGame.py lines 411-418), which hands
off through `ChessGame.go_to_state` again — to a `ForceMoveState` for a
non-empty suffix (lines 413-415) or to the next-move state on
`StopIteration` (line 418) — and that call invokes `on_leave_state` on
`ForceMultipleMovesState` itself, which does not define it
(`defines_on_leave_state StateClass.forceMultipleMoves = false`), raising
`AttributeError` before any `ForceMoveState` is entered.  On an inactive
game the call returns with the replay deferred, and the deferred
`on_enter_state` raises the same way on activation.  Hence in every branch
the resulting history is the old history or its popped prefix; no suffix
move is ever committed.  The result pairs the game state at the moment the
call (or its synchronous transition) finishes with the raised error, if
any. -/
def force_moves_run {Pos Move : Type} [DecidableEq Move] (R : Rules Pos Move)
    (g : ChessGame Pos Move) (inner : StateClass) (is_active : Bool)
    (new_moves : List Move) (forced_winner : Option String) :
    ChessGame Pos Move × Option PyError :=
  if !is_bluetooth_game g then (g, some PyError.valueError)
  else if !is_legal_move_list R new_moves then (g, some PyError.valueError)
  else if new_moves = g.history ∧ forced_winner = none then (g, none)
  else if !defines_on_leave_state inner then
    (pop_board_to_move_number g (index_of_difference new_moves g.history),
      some PyError.attributeError)
  else if is_active then
    (pop_board_to_move_number g (index_of_difference new_moves g.history),
      some PyError.attributeError)
  else
    (pop_board_to_move_number g (index_of_difference new_moves g.history), none)

/-- The three kinds of commit named by the spec: a confirmed player move
(`ConfirmMoveState._do_move`), an engine forced move (`ForceMoveState`
reached from `CalculateEngineMoveState`), and a remote forced-move list
delivered via `force_moves` — carrying the class of the inner state that
is current when `force_moves` is called and whether the game is the active
outer state. -/
inductive Commit (Move : Type) where
  | player (m : Move)
  | engineForced (m : Move)
  | remoteForced (moves : List Move) (forcedWinner : Option String)
      (inner : StateClass) (is_active : Bool)

/-- Acceptance condition of a commit.  A player move is produced by
`board.find_move`, hence legal at the authoritative position where it is
committed; an engine move is legal there by the engine contract.  For a
remote forced list no condition is required at all: the invariant is
preserved by every outcome of `force_moves_run` — rejection, no-action, or
the pop followed by the `AttributeError` in the transition, after which no
suffix move is ever committed. -/
def CommitAccepted {Pos Move : Type} (R : Rules Pos Move)
    (g : ChessGame Pos Move) : Commit Move → Prop
  | Commit.player m => R.isLegal (board_of R g) m = true
  | Commit.engineForced m => R.isLegal (board_of R g) m = true
  | Commit.remoteForced _ _ _ _ => True

/-- Effect of a commit on the game (ChessGame.py lines 317-319, 389-392,
570-590 with 562-567): player and engine commits run `do_move`; a remote
forced list leaves the game in the state `force_moves_run` computes. -/
def applyCommit {Pos Move : Type} [DecidableEq Move] (R : Rules Pos Move)
    (g : ChessGame Pos Move) : Commit Move → ChessGame Pos Move
  | Commit.player m => do_move g m false
  | Commit.engineForced m => do_move g m true
  | Commit.remoteForced l w inner act => (force_moves_run R g inner act l w).1

/-! ## Game persistence (StateManager.on_game_end, ChessGame.should_save_game,
FileManager.write_pgn) -/

/-- Translation of `ChessGame.should_save_game` (ChessGame.py lines
696-697): save unless a bluetooth game, and only when the position is game
over (with draw claims) or at least 8 half-moves were played. -/
def should_save_game {Pos Move : Type} (R : Rules Pos Move)
    (g : ChessGame Pos Move) : Bool :=
  !is_bluetooth_game g && (R.isGameOver (board_of R g) || decide (8 ≤ R.ply (board_of R g)))

/-- Externally visible effects of `StateManager.on_game_end`. -/
inductive GameEndEvent where
  | wrotePgn
  | broadcastGamesToUpload
  | broadcastGameInactive
deriving DecidableEq

/-- Parameter count of `FileManager.write_pgn` (FileManager.py line 38):
`def write_pgn(pgn, game_id)`, both required. -/
def write_pgn_param_count : Nat := 2

/-- Argument count at the call site `FileManager.write_pgn(self.game.get_pgn())`
in `StateManager.on_game_end` (StateManager.py line 170). -/
def on_game_end_write_pgn_arg_count : Nat := 1

/-- The `write_pgn` call of `on_game_end`: a Python call binding fewer
arguments than required parameters raises `TypeError`. -/
def call_write_pgn : Except PyError GameEndEvent :=
  if on_game_end_write_pgn_arg_count = write_pgn_param_count then
    Except.ok GameEndEvent.wrotePgn
  else Except.error PyError.typeError

/-- Translation of `StateManager.on_game_end` (StateManager.py lines
168-172): when the game should be saved, write the PGN and broadcast the
games-to-upload count, then in all paths broadcast whether a game is
active.  A raise aborts the remaining statements, so the events emitted up
to the raise are returned with the error. -/
def on_game_end {Pos Move : Type} (R : Rules Pos Move) (g : ChessGame Pos Move) :
    List GameEndEvent × Option PyError :=
  if should_save_game R g then
    match call_write_pgn with
    | Except.ok e => ([e, GameEndEvent.broadcastGamesToUpload,
        GameEndEvent.broadcastGameInactive], none)
    | Except.error err => ([], some err)
  else ([GameEndEvent.broadcastGameInactive], none)

/-! ## Remote move injection call chain (BluetoothManager.force_bluetooth_moves →
StateManager.force_bluetooth_moves → ChessGame.force_moves) -/

/-- A Python call made entirely with keyword arguments binds exactly when
every keyword names a parameter and every parameter without a default is
supplied. -/
def py_kwargs_bind (params kwargs : List String) : Bool :=
  kwargs.all (fun k => params.contains k) && params.all (fun p => kwargs.contains p)

/-- Parameters of `StateManager.force_bluetooth_moves` (StateManager.py
line 96): `(self, game_id, bluetooth_player, moves)`, none with a default. -/
def stateManager_force_bluetooth_moves_params : List String :=
  ["game_id", "bluetooth_player", "moves"]

/-- Keywords passed by `BluetoothManager.force_bluetooth_moves`
(BluetoothManager.py lines 268-273): `game_id`, `bluetooth_player`
(computed as the negation of the parsed client color), `moves`, and
`forced_winner`. -/
def bluetoothManager_force_bluetooth_moves_kwargs : List String :=
  ["game_id", "bluetooth_player", "moves", "forced_winner"]

/-- Required positional parameter count of `ChessGame.force_moves`
(ChessGame.py line 570): `(self, moves_string, forced_winner)`, neither
with a default. -/
def chessGame_force_moves_param_count : Nat := 2

/-- Argument count at the call site `self.game.force_moves(moves)` in
`StateManager.force_bluetooth_moves` (StateManager.py line 102). -/
def stateManager_force_moves_call_arg_count : Nat := 1

/-! ## Engine adapter (ChessGame.engine_best_move) -/

/-- Outcome of an opening-book probe (`self._opening_book.choice`): an
entry, or the `IndexError` raised when the book has none for the
position. -/
inductive BookLookup (Move : Type) where
  | hit (m : Move)
  | noEntry

/-- The sequence of completion-callback invocations performed by one run
of `ChessGame.engine_best_move` (ChessGame.py lines 746-772).
`bookConsulted` is the condition `opening_book is not None` and the random
draw `uniform(1, MAX_NORMAL_ENGINE_SKILL) <= engine_skill`.  On a book hit
the callback is invoked with the book move and — the method continues past
the `try` block — invoked again with the move of the timed engine search;
on a miss the `IndexError` is swallowed and only the engine search
reports; with no book consultation only the engine search reports. -/
def engine_best_move_callbacks {Move : Type} (bookConsulted : Bool)
    (lookup : BookLookup Move) (engineMove : Move) : List Move :=
  if bookConsulted then
    match lookup with
    | BookLookup.hit m => [m, engineMove]
    | BookLookup.noEntry => [engineMove]
  else [engineMove]

/-! ## Game start requests (StateManager.on_game_start_request, create_game) -/

/-- JSON-representable values stored in the settings dictionaries. -/
inductive SettingVal where
  | b (v : Bool)
  | s (v : String)
  | i (v : Int)
deriving DecidableEq

/-- Dictionary lookup, `d[key]` on the right-hand side of an expression
(raises `KeyError` when absent, hence `Option`). -/
def dict_get (d : List (String × SettingVal)) (key : String) : Option SettingVal :=
  match d.find? (fun p => p.1 = key) with
  | some p => some p.2
  | none => none

/-- Dictionary assignment `d[key] = v`: replace the value when the key is
present, append otherwise. -/
def dict_set (d : List (String × SettingVal)) (key : String) (v : SettingVal) :
    List (String × SettingVal) :=
  if (d.find? (fun p => p.1 = key)).isSome then
    d.map (fun p => if p.1 = key then (key, v) else p)
  else d ++ [(key, v)]

/-- Orchestrator state visible to `on_game_start_request`: the in-memory
engine-settings dictionary (`self._engine_settings`), the last content
written to the engine-settings file, the ongoing game's id, the id of a
game created by the request (if creation succeeded), and whether the
`WaitingForSetup` state was re-entered. -/
structure OrchestratorState where
  engineSettings : List (String × SettingVal)
  persistedEngineSettings : Option (List (String × SettingVal))
  ongoingGameId : Option String
  createdGameId : Option String
  reenteredWaitingForSetup : Bool
deriving DecidableEq

/-- Translation of `StateManager.on_game_start_request` (StateManager.py
lines 106-121) composed with `create_game` (lines 126-148).  In source
order: skip when the ongoing game's id is set and equals the requested id;
raise `ValueError` on an engine color other than "white"/"black"; raise
`ValueError` on an engine level outside [1, 20]; store the three engine
settings and write them to the file; then `create_game` reads the player
types from `enableEngine`/`engineColor` and evaluates
`int(self._engine_settings["engineSkill"])`, which raises `KeyError` when
the dictionary has no `engineSkill` key; on success the new game's id is
the requested one (or a generated one) and `WaitingForSetup` is
re-entered.  The state at the moment of a raise is returned with the
error. -/
def on_game_start_request (st : OrchestratorState) (enable_engine : Bool)
    (engine_color : String) (engine_level : Int) (game_id : Option String) :
    OrchestratorState × Option PyError :=
  if st.ongoingGameId.isSome ∧ st.ongoingGameId = game_id then (st, none)
  else if engine_color ≠ "white" ∧ engine_color ≠ "black" then
    (st, some PyError.valueError)
  else if engine_level > 20 ∨ engine_level < 1 then (st, some PyError.valueError)
  else
    let es := dict_set (dict_set (dict_set st.engineSettings
      "enableEngine" (SettingVal.b enable_engine))
      "engineColor" (SettingVal.s engine_color))
      "engineLevel" (SettingVal.i engine_level)
    let st1 := { st with engineSettings := es, persistedEngineSettings := some es }
    match dict_get es "engineSkill" with
    | none => (st1, some PyError.keyError)
    | some _ =>
      ({ st1 with
          createdGameId := some (game_id.getD "generated-id")
          reenteredWaitingForSetup := true }, none)

/-! ## Power-off states (ChessGame.WaitingForSetupState, WaitingToPowerOffState) -/

/-- `WaitingToPowerOffState.POWER_OFF_DELAY_SHORT` (ChessGame.py line 120). -/
def POWER_OFF_DELAY_SHORT : Nat := 10

/-- `WaitingToPowerOffState.POWER_OFF_DELAY_LONG` (ChessGame.py line 121). -/
def POWER_OFF_DELAY_LONG : Nat := 30

/-- The starting-squares occupancy bitboard (ChessGame.py line 63). -/
def STARTING_SQUARES : Nat := 0xFFFF00000000FFFF

/-- 64-bit all-ones mask; occupancy bitboards live below `2 ^ 64`. -/
def BOARD_MASK : Nat := 0xFFFFFFFFFFFFFFFF

/-- Population count of a 64-bit occupancy bitboard (the external
`chess.popcount` primitive, restricted to 64-bit values). -/
def popcount (n : Nat) : Nat :=
  ((List.range 64).map fun i => n / 2 ^ i % 2).sum

/-- Translation of
`WaitingForSetupState.should_have_long_power_off_delay` (ChessGame.py
lines 115-116). -/
def should_have_long_power_off_delay (max_num_pieces : Nat) : Bool :=
  max_num_pieces ≤ 4

/-- Transition chosen by `WaitingForSetupState.on_board_changed`. -/
inductive SetupAction where
  | powerOff (is_long_delay : Bool)
  | startGame
  | showLeds (slow_blink : Nat) (slow_blink_2 : Nat)
deriving DecidableEq

/-- Translation of `WaitingForSetupState.on_board_changed` (ChessGame.py
lines 98-113): update the session maximum piece count, then transit to
`WaitingToPowerOffState` with the long/short flag when the board is empty,
start the game when no piece is wrong, and blink the extra and missing
pieces otherwise.  Returns the updated maximum and the chosen action. -/
def waiting_for_setup_on_board_changed (max_num_pieces : Nat) (board : Nat) :
    Nat × SetupAction :=
  let missing_pieces := STARTING_SQUARES &&& (BOARD_MASK ^^^ board)
  let extra_pieces := (BOARD_MASK ^^^ STARTING_SQUARES) &&& board
  let num_wrong_pieces := popcount missing_pieces + popcount extra_pieces
  let num_pieces := popcount board
  let max2 := if num_pieces > max_num_pieces then num_pieces else max_num_pieces
  if board = 0 then (max2, SetupAction.powerOff (should_have_long_power_off_delay max2))
  else if num_wrong_pieces = 0 then (max2, SetupAction.startGame)
  else (max2, SetupAction.showLeds extra_pieces missing_pieces)

/-- Translation of the delay selection in `WaitingToPowerOffState.__init__`
(ChessGame.py line 127): the source expression is
`POWER_OFF_DELAY_LONG if is_long_delay else POWER_OFF_DELAY_LONG`. -/
def waiting_to_power_off_delay (is_long_delay : Bool) : Nat :=
  if is_long_delay then POWER_OFF_DELAY_LONG else POWER_OFF_DELAY_LONG

/-! ## Bluetooth frame codec (BluetoothManager.encode_message / decode_message) -/

/-- Big-endian byte string of fixed length, least significant byte last. -/
def bytesBE : Nat → Nat → List Nat
  | 0, _ => []
  | k + 1, v => bytesBE k (v / 256) ++ [v % 256]

/-- Python `value.to_bytes(length, byteorder="big", signed=True)`: raises
`OverflowError` outside the signed range, otherwise the big-endian
two's-complement bytes. -/
def to_bytes_signed (length : Nat) (value : Int) : Option (List Nat) :=
  if -(2 ^ (8 * length - 1) : Int) ≤ value ∧ value < (2 ^ (8 * length - 1) : Int) then
    some (bytesBE length (value.emod (2 ^ (8 * length))).toNat)
  else none

/-- UTF-8 encoding of one Unicode scalar value. -/
def utf8EncodeChar (c : Nat) : List Nat :=
  if c < 0x80 then [c]
  else if c < 0x800 then [0xC0 + c / 64, 0x80 + c % 64]
  else if c < 0x10000 then [0xE0 + c / 4096, 0x80 + c / 64 % 64, 0x80 + c % 64]
  else [0xF0 + c / 262144, 0x80 + c / 4096 % 64, 0x80 + c / 64 % 64, 0x80 + c % 64]

/-- UTF-8 encoding of a string given as its Unicode scalar values
(Python `bytes(data, "utf-8")`). -/
def utf8Encode : List Nat → List Nat
  | [] => []
  | c :: cs => utf8EncodeChar c ++ utf8Encode cs

/-- Strict UTF-8 decoding loop with fuel (each step consumes at least one
byte, so fuel equal to the byte count suffices); rejects continuation-only
leads, overlong forms, surrogates and values beyond U+10FFFF, as Python's
strict `bytes.decode("utf-8")` does. -/
def utf8DecodeAux : Nat → List Nat → Option (List Nat)
  | _, [] => some []
  | 0, _ :: _ => none
  | fuel + 1, b :: rest =>
    if b < 0x80 then
      match utf8DecodeAux fuel rest with
      | some cs => some (b :: cs)
      | none => none
    else if b < 0xC2 then none
    else if b < 0xE0 then
      match rest with
      | c1 :: rest1 =>
        if 0x80 ≤ c1 ∧ c1 < 0xC0 then
          match utf8DecodeAux fuel rest1 with
          | some cs => some (((b - 0xC0) * 64 + (c1 - 0x80)) :: cs)
          | none => none
        else none
      | [] => none
    else if b < 0xF0 then
      match rest with
      | c1 :: c2 :: rest2 =>
        if (0x80 ≤ c1 ∧ c1 < 0xC0) ∧ (0x80 ≤ c2 ∧ c2 < 0xC0) ∧
            ¬(b = 0xE0 ∧ c1 < 0xA0) ∧ ¬(b = 0xED ∧ 0xA0 ≤ c1) then
          match utf8DecodeAux fuel rest2 with
          | some cs => some (((b - 0xE0) * 4096 + (c1 - 0x80) * 64 + (c2 - 0x80)) :: cs)
          | none => none
        else none
      | _ => none
    else if b < 0xF5 then
      match rest with
      | c1 :: c2 :: c3 :: rest3 =>
        if (0x80 ≤ c1 ∧ c1 < 0xC0) ∧ (0x80 ≤ c2 ∧ c2 < 0xC0) ∧
            (0x80 ≤ c3 ∧ c3 < 0xC0) ∧
            ¬(b = 0xF0 ∧ c1 < 0x90) ∧ ¬(b = 0xF4 ∧ 0x90 ≤ c1) then
          match utf8DecodeAux fuel rest3 with
          | some cs => some (((b - 0xF0) * 262144 + (c1 - 0x80) * 4096 +
              (c2 - 0x80) * 64 + (c3 - 0x80)) :: cs)
          | none => none
        else none
      | _ => none
    else none

/-- Strict UTF-8 decoding of a byte string to Unicode scalar values
(Python `message.decode("utf-8")`). -/
def utf8Decode (l : List Nat) : Option (List Nat) :=
  utf8DecodeAux l.length l

/-- Translation of `BluetoothManager.encode_message` (BluetoothManager.py
lines 168-172): the signed action byte, then the payload's character count
as a signed big-endian 32-bit value (`MESSAGE_HEAD_LENGTH = 4`), then the
UTF-8 bytes of the payload.  The payload is given as its Unicode scalar
values. -/
def encode_message (action : Int) (data : List Nat) : Option (List Nat) :=
  match to_bytes_signed 1 action, to_bytes_signed 4 (Int.ofNat data.length) with
  | some a, some l => some (a ++ l ++ utf8Encode data)
  | _, _ => none

/-- Translation of `BluetoothManager.decode_message` (BluetoothManager.py
lines 174-176): `message[0]` — the first byte as a non-negative integer —
paired with `message[1:].decode("utf-8")`.  An empty message raises
`IndexError` and an invalid byte sequence raises a decode error, hence
`Option`. -/
def decode_message (message : List Nat) : Option (Int × List Nat) :=
  match message with
  | [] => none
  | b :: rest =>
    match utf8Decode rest with
    | some s => some ((b : Int), s)
    | none => none

/-! ## Concrete rules instances for witnesses and failing inputs -/

/-- A permissive rules instance: every move except the null move `9` is
legal everywhere; the ply of a position is its move count. -/
def rulesPermissive : Rules (List Nat) Nat where
  push := fun p m => p ++ [m]
  isLegal := fun _ m => m ≠ 9
  nullMove := 9
  standardStart := []
  isGameOver := fun _ => false
  ply := fun p => p.length

/-- A bluetooth game from the standard starting position with two moves
played. -/
def gameBt : ChessGame (List Nat) Nat where
  startPos := []
  history := [1, 3]
  pgnMoves := [1, 3]
  whitePlayerType := PlayerType.bluetooth
  blackPlayerType := PlayerType.human
  wasLastMoveForced := false

/-- A human-vs-human game with eight half-moves played. -/
def gameHuman8 : ChessGame (List Nat) Nat where
  startPos := []
  history := [1, 2, 3, 4, 5, 6, 7, 8]
  pgnMoves := [1, 2, 3, 4, 5, 6, 7, 8]
  whitePlayerType := PlayerType.human
  blackPlayerType := PlayerType.human
  wasLastMoveForced := false

/-- A standard-start human game with one move played. -/
def gameStd : ChessGame (List Nat) Nat where
  startPos := []
  history := [1]
  pgnMoves := [1]
  whitePlayerType := PlayerType.human
  blackPlayerType := PlayerType.human
  wasLastMoveForced := false

/-! ## Supporting lemmas -/

theorem index_of_difference_take_eq {α : Type} [DecidableEq α] :
    ∀ l1 l2 : List α,
      l1.take (index_of_difference l1 l2) = l2.take (index_of_difference l1 l2)
  | [], l2 => by simp [index_of_difference]
  | _ :: _, [] => by simp [index_of_difference]
  | a :: as, b :: bs => by
    by_cases h : a = b
    · subst h
      simp [index_of_difference, index_of_difference_take_eq as bs]
    · simp [index_of_difference, h]

theorem index_of_difference_le_left {α : Type} [DecidableEq α] :
    ∀ l1 l2 : List α, index_of_difference l1 l2 ≤ l1.length
  | [], _ => by simp [index_of_difference]
  | _ :: _, [] => by simp [index_of_difference]
  | a :: as, b :: bs => by
    by_cases h : a = b
    · simpa [index_of_difference, h] using index_of_difference_le_left as bs
    · simp [index_of_difference, h]

theorem index_of_difference_le_right {α : Type} [DecidableEq α] :
    ∀ l1 l2 : List α, index_of_difference l1 l2 ≤ l2.length
  | [], _ => by simp [index_of_difference]
  | _ :: _, [] => by simp [index_of_difference]
  | a :: as, b :: bs => by
    by_cases h : a = b
    · simpa [index_of_difference, h] using index_of_difference_le_right as bs
    · simp [index_of_difference, h]

theorem index_of_difference_maximal {α : Type} [DecidableEq α] :
    ∀ (l1 l2 : List α) (j : Nat), j ≤ l1.length → j ≤ l2.length →
      l1.take j = l2.take j → j ≤ index_of_difference l1 l2
  | [], _, j, hj, _, _ => by simpa [index_of_difference] using hj
  | _ :: _, [], j, _, hj, _ => by simpa [index_of_difference] using hj
  | _ :: _, _ :: _, 0, _, _, _ => Nat.zero_le _
  | a :: as, b :: bs, j + 1, hj1, hj2, htake => by
    rw [List.take_succ_cons, List.take_succ_cons] at htake
    injection htake with hab ht
    subst hab
    have hrec := index_of_difference_maximal as bs j (Nat.le_of_succ_le_succ hj1)
      (Nat.le_of_succ_le_succ hj2) ht
    simpa [index_of_difference] using Nat.succ_le_succ hrec

theorem index_of_difference_isLcpLen {α : Type} [DecidableEq α] (l1 l2 : List α) :
    IsLcpLen (index_of_difference l1 l2) l1 l2 :=
  ⟨index_of_difference_le_left l1 l2, index_of_difference_le_right l1 l2,
    index_of_difference_take_eq l1 l2, index_of_difference_maximal l1 l2⟩

theorem legalFrom_append {Pos Move : Type} (R : Rules Pos Move) :
    ∀ (l1 : List Move) (b : Pos) (l2 : List Move),
      legalFrom R b (l1 ++ l2) =
        (legalFrom R b l1 && legalFrom R (l1.foldl R.push b) l2)
  | [], b, l2 => by simp [legalFrom]
  | m :: ms, b, l2 => by
    simp [legalFrom, legalFrom_append R ms (R.push b m) l2, Bool.and_assoc]

theorem legalFrom_take {Pos Move : Type} (R : Rules Pos Move) (b : Pos)
    (l : List Move) (n : Nat) (h : legalFrom R b l = true) :
    legalFrom R b (l.take n) = true := by
  have happ := legalFrom_append R (l.take n) b (l.drop n)
  rw [List.take_append_drop, h] at happ
  cases hb : legalFrom R b (l.take n) with
  | false => rw [hb] at happ; simp at happ
  | true => rfl

theorem is_legal_move_list_from_of_null_mem {Pos Move : Type} [DecidableEq Move]
    (R : Rules Pos Move) :
    ∀ (l : List Move) (b : Pos), R.nullMove ∈ l →
      is_legal_move_list_from R b l = false
  | m :: ms, b, hmem => by
    unfold is_legal_move_list_from
    by_cases hm : m = R.nullMove
    · simp [hm]
    · have hms : R.nullMove ∈ ms := by
        cases hmem with
        | head => exact absurd rfl (Ne.symm hm)
        | tail _ h => exact h
      by_cases hc : (!R.isLegal b m || decide (m = R.nullMove)) = true
      · rw [if_pos hc]
      · rw [if_neg hc]
        exact is_legal_move_list_from_of_null_mem R ms (R.push b m) hms

theorem force_moves_error_of_illegal {Pos Move : Type} [DecidableEq Move]
    (R : Rules Pos Move) (g : ChessGame Pos Move) (l : List Move)
    (w : Option String) (hleg : is_legal_move_list R l = false) :
    isErrorOutcome (force_moves R g l w) = true := by
  by_cases hbt : is_bluetooth_game g = true
  · have : force_moves R g l w = ForceMovesOutcome.error PyError.valueError := by
      simp [force_moves, hbt, hleg]
    rw [this]; rfl
  · have : force_moves R g l w = ForceMovesOutcome.error PyError.valueError := by
      simp [force_moves, eq_false_of_ne_true hbt]
    rw [this]
    rfl

theorem force_moves_result_of_error {Pos Move : Type} [DecidableEq Move]
    (R : Rules Pos Move) (g : ChessGame Pos Move) (l : List Move)
    (w : Option String)
    (herr : isErrorOutcome (force_moves R g l w) = true) :
    force_moves_result R g l w = g := by
  unfold force_moves_result
  cases h : force_moves R g l w with
  | error e => rfl
  | noAction => rfl
  | replay p s w2 =>
    rw [h] at herr
    exact absurd herr (by simp [isErrorOutcome])

theorem force_moves_run_shape {Pos Move : Type} [DecidableEq Move]
    (R : Rules Pos Move) (g : ChessGame Pos Move) (inner : StateClass)
    (act : Bool) (l : List Move) (w : Option String) :
    (force_moves_run R g inner act l w).1 = g ∨
    (force_moves_run R g inner act l w).1 =
      pop_board_to_move_number g (index_of_difference l g.history) := by
  unfold force_moves_run
  split
  · exact Or.inl rfl
  · split
    · exact Or.inl rfl
    · split
      · exact Or.inl rfl
      · split
        · exact Or.inr rfl
        · split
          · exact Or.inr rfl
          · exact Or.inr rfl

/-! ## Claim theorems -/

/-- Claim C1: for every game — including games created with a custom
`start_fen` — and every accepted commit (a confirmed player move, an
engine forced move, or a remote forced-move list delivered via
`force_moves`), the starting position is unchanged and every move of the
recorded history is legal at the position where it is applied; the
authoritative position is by construction the starting position with the
history applied (`board_of`).  A player move comes from `find_move` and an
engine move from the engine, both legal at the authoritative position
where they are committed (`CommitAccepted`).  A `force_moves` call needs
no acceptance hypothesis at all: it either raises before any mutation,
returns with no action, or pops the history to a prefix — a
legality-preserving truncation — and then raises `AttributeError` inside
`go_to_state` before any suffix move is committed (`force_moves_run`), so
the standard-start validation gap of `is_legal_move_list` can never place
an illegal move in the history, even for a custom `start_fen`. -/
theorem c1_move_legality_invariant
    {Pos Move : Type} [DecidableEq Move] (R : Rules Pos Move)
    (g : ChessGame Pos Move) (c : Commit Move)
    (hinv : legalFrom R g.startPos g.history = true)
    (hacc : CommitAccepted R g c) :
    (applyCommit R g c).startPos = g.startPos ∧
    legalFrom R (applyCommit R g c).startPos (applyCommit R g c).history = true := by
  cases c with
  | player m =>
    have hacc' : R.isLegal (g.history.foldl R.push g.startPos) m = true := hacc
    refine ⟨rfl, ?_⟩
    show legalFrom R g.startPos (g.history ++ [m]) = true
    rw [legalFrom_append]
    simp [legalFrom, hinv, hacc']
  | engineForced m =>
    have hacc' : R.isLegal (g.history.foldl R.push g.startPos) m = true := hacc
    refine ⟨rfl, ?_⟩
    show legalFrom R g.startPos (g.history ++ [m]) = true
    rw [legalFrom_append]
    simp [legalFrom, hinv, hacc']
  | remoteForced l w inner act =>
    show (force_moves_run R g inner act l w).1.startPos = g.startPos ∧
      legalFrom R (force_moves_run R g inner act l w).1.startPos
        (force_moves_run R g inner act l w).1.history = true
    rcases force_moves_run_shape R g inner act l w with h | h <;> rw [h]
    · exact ⟨rfl, hinv⟩
    · exact ⟨rfl, legalFrom_take R g.startPos g.history _ hinv⟩

/-- Claim C1, witness: a standard game with a legal one-move history
accepts a player commit of move `2` and keeps the invariant. -/
theorem c1_move_legality_invariant_witness :
    legalFrom rulesPermissive gameStd.startPos gameStd.history = true ∧
    ((applyCommit rulesPermissive gameStd (Commit.player 2)).startPos = gameStd.startPos ∧
      legalFrom rulesPermissive
        (applyCommit rulesPermissive gameStd (Commit.player 2)).startPos
        (applyCommit rulesPermissive gameStd (Commit.player 2)).history = true) :=
  ⟨rfl,
    c1_move_legality_invariant rulesPermissive gameStd (Commit.player 2) rfl
      (by show rulesPermissive.isLegal (board_of rulesPermissive gameStd) 2 = true
          decide)⟩

/-- Claim C2: false on the code.  `StateManager.go_to_state` invokes
`on_leave_state` on the outgoing state unconditionally, but the abstract
`State` base class declares no such method and seven concrete states
(`WaitingForSetupState`, `PlayerMoveBaseState`, `PlayerMoveFromSquareState`,
`CompleteMoveState`, `ForceMoveState`, `ForceMultipleMovesState`,
`IdleState`) do not define it, so leaving any of them raises
`AttributeError` instead of completing the leave-enter-replay sequence;
the very first transition out of `WaitingForSetupState` into the game
already fails. -/
theorem c2_go_to_state_missing_leave_hook :
    go_to_state StateClass.waitingForSetup StateClass.chessGame =
      Except.error PyError.attributeError ∧
    defines_on_leave_state StateClass.playerMoveBase = false ∧
    defines_on_leave_state StateClass.idle = false ∧
    defines_on_leave_state StateClass.forceMultipleMoves = false :=
  ⟨rfl, rfl, rfl, rfl⟩

/-- Claim C3: false on the code.  `force_moves` does pop the board,
history and PGN back exactly to the longest common prefix (the fourth
conjunct, with `index_of_difference_isLcpLen` showing
`index_of_difference` computes that length), but it never replays the
suffix: the closing `go_to_state(ForceMultipleMovesState(...))` calls
`on_leave_state` on the current inner state — `IdleState` in a bluetooth
game awaiting the remote side, which defines no such method (last
conjunct) — raising `AttributeError`; and even from a state that has the
hook the pipeline's first hand-off raises the same way on
`ForceMultipleMovesState` itself (second conjunct, `inner =
confirmMove`).  The history is therefore left at the common prefix `[1]`,
not the new list `[1, 2]`. -/
theorem c3_force_moves_replay_attribute_error :
    force_moves_run rulesPermissive gameBt StateClass.idle true [1, 2] none =
      (pop_board_to_move_number gameBt 1, some PyError.attributeError) ∧
    force_moves_run rulesPermissive gameBt StateClass.confirmMove true [1, 2] none =
      (pop_board_to_move_number gameBt 1, some PyError.attributeError) ∧
    (force_moves_run rulesPermissive gameBt StateClass.idle true [1, 2] none).1.history
      = [1] ∧
    IsLcpLen 1 [1, 2] gameBt.history ∧
    ([1] : List Nat) ≠ [1, 2] ∧
    defines_on_leave_state StateClass.idle = false := by
  refine ⟨by decide, by decide, by decide, ?_, by decide, rfl⟩
  have h : index_of_difference [1, 2] gameBt.history = 1 := by decide
  simpa [h] using index_of_difference_isLcpLen [1, 2] gameBt.history

/-- Claim C4: false on the code.  `decode_message` returns `message[0]`
(the first byte, as a non-negative integer) and decodes everything after
it — including the four length-header bytes that `encode_message`
inserted — as the payload, so even for tag `0` and the empty payload the
round trip yields four spurious NUL characters instead of the original
payload. -/
theorem c4_decode_encode_not_round_trip :
    encode_message 0 [] = some [0, 0, 0, 0, 0] ∧
    decode_message [0, 0, 0, 0, 0] = some ((0 : Int), [0, 0, 0, 0]) ∧
    some ((0 : Int), ([0, 0, 0, 0] : List Nat)) ≠
      some ((0 : Int), ([] : List Nat)) := by
  refine ⟨by decide, by decide, by decide⟩

/-- Claim C5: false on the code.  `StateManager.on_game_end` calls
`FileManager.write_pgn` with one argument while `write_pgn` requires two
(`pgn`, `game_id`), so for every game that should be saved (here a
human-vs-human game with eight half-moves) the call raises `TypeError`:
no PGN is written and the game-inactive broadcast is skipped. -/
theorem c5_on_game_end_write_pgn_type_error :
    should_save_game rulesPermissive gameHuman8 = true ∧
    on_game_end rulesPermissive gameHuman8 = ([], some PyError.typeError) :=
  ⟨rfl, rfl⟩

/-- Claim C6: false on the code.  `StateManager.force_bluetooth_moves`
accepts only `(game_id, bluetooth_player, moves)`, so the four-keyword
call from `BluetoothManager` (which adds `forced_winner`) does not bind
and raises `TypeError`; and its own call `self.game.force_moves(moves)`
supplies one argument where `ChessGame.force_moves` requires two. -/
theorem c6_force_bluetooth_moves_arity_mismatch :
    py_kwargs_bind stateManager_force_bluetooth_moves_params
      bluetoothManager_force_bluetooth_moves_kwargs = false ∧
    stateManager_force_moves_call_arg_count < chessGame_force_moves_param_count := by
  decide

/-- Claim C7: false on the code.  `ChessGame.engine_best_move` does not
return after invoking the callback with the opening-book move, so on a
book hit the method continues into the timed engine search and invokes the
completion callback a second time. -/
theorem c7_engine_best_move_double_callback :
    engine_best_move_callbacks true (BookLookup.hit (5 : Nat)) 7 = [5, 7] ∧
    (engine_best_move_callbacks true (BookLookup.hit (5 : Nat)) 7).length ≠ 1 :=
  ⟨rfl, by decide⟩

/-- Engine-settings state whose dictionary matches the documented
engine-settings file schema (`enableEngine`, `engineColor`,
`engineLevel`), with an ongoing game of id "OLD". -/
def orchestratorSpecFile : OrchestratorState where
  engineSettings := [("enableEngine", SettingVal.b false),
    ("engineColor", SettingVal.s "white"), ("engineLevel", SettingVal.i 3)]
  persistedEngineSettings := none
  ongoingGameId := some "OLD"
  createdGameId := none
  reenteredWaitingForSetup := false

/-- Claim C8: false on the code.  A valid start request with a fresh id
persists the engine settings (writing the key `engineLevel`), but
`create_game` then reads `self._engine_settings["engineSkill"]` — a key
the request never writes and the documented file schema does not contain —
so game creation raises `KeyError` after the settings were persisted: no
new game is created and `WaitingForSetup` is not re-entered. -/
theorem c8_on_game_start_request_key_error :
    (on_game_start_request orchestratorSpecFile true "white" 5 (some "NEW")).2 =
      some PyError.keyError ∧
    (on_game_start_request orchestratorSpecFile true "white" 5
        (some "NEW")).1.persistedEngineSettings =
      some [("enableEngine", SettingVal.b true),
        ("engineColor", SettingVal.s "white"), ("engineLevel", SettingVal.i 5)] ∧
    (on_game_start_request orchestratorSpecFile true "white" 5
        (some "NEW")).1.createdGameId = none ∧
    (on_game_start_request orchestratorSpecFile true "white" 5
        (some "NEW")).1.reenteredWaitingForSetup = false := by
  decide

/-- Claim C9: false on the code.  `WaitingForSetupState` does select the
long flag exactly when at most 4 pieces have been seen (first two
conjuncts), but `WaitingToPowerOffState.__init__` evaluates
`POWER_OFF_DELAY_LONG if is_long_delay else POWER_OFF_DELAY_LONG`, so the
short case schedules 30 seconds as well, not the 10 seconds of the unused
`POWER_OFF_DELAY_SHORT` constant. -/
theorem c9_power_off_short_delay_is_thirty :
    (waiting_for_setup_on_board_changed 32 0).2 = SetupAction.powerOff false ∧
    (waiting_for_setup_on_board_changed 3 0).2 = SetupAction.powerOff true ∧
    waiting_to_power_off_delay false = 30 ∧
    waiting_to_power_off_delay true = 30 ∧
    POWER_OFF_DELAY_SHORT = 10 := by
  refine ⟨by decide, by decide, rfl, rfl, rfl⟩

/-- Claim C10: a move list containing the null move, or failing the
legality check, makes `force_moves` raise before any mutation: the
authoritative board, the move history and the PGN record are unchanged. -/
theorem c10_force_moves_rejects_illegal
    {Pos Move : Type} [DecidableEq Move] (R : Rules Pos Move)
    (g : ChessGame Pos Move) (l : List Move) (w : Option String)
    (h : R.nullMove ∈ l ∨ is_legal_move_list R l = false) :
    isErrorOutcome (force_moves R g l w) = true ∧
    force_moves_result R g l w = g ∧
    board_of R (force_moves_result R g l w) = board_of R g := by
  have hleg : is_legal_move_list R l = false := by
    cases h with
    | inl hmem => exact is_legal_move_list_from_of_null_mem R l R.standardStart hmem
    | inr hf => exact hf
  have herr := force_moves_error_of_illegal R g l w hleg
  have hres := force_moves_result_of_error R g l w herr
  exact ⟨herr, hres, by rw [hres]⟩

/-- Claim C10, witness: forcing the singleton list holding the null move
on a bluetooth game raises and leaves the game unchanged. -/
theorem c10_force_moves_rejects_illegal_witness :
    (rulesPermissive.nullMove ∈ [9] ∨
      is_legal_move_list rulesPermissive [9] = false) ∧
    isErrorOutcome (force_moves rulesPermissive gameBt [9] none) = true ∧
    force_moves_result rulesPermissive gameBt [9] none = gameBt := by
  have h : rulesPermissive.nullMove ∈ [(9 : Nat)] ∨
      is_legal_move_list rulesPermissive [9] = false := Or.inl (by decide)
  have hc := c10_force_moves_rejects_illegal rulesPermissive gameBt [9] none h
  exact ⟨h, hc.1, hc.2.1⟩
